import Mathlib

/-!
Verification of the Workspace Readiness & Debug Session Orchestrator of the
wendy-vscode extension, as a shallow embedding in Lean 4.

The embedding translates the TypeScript source:
* `debugger/launch.ts` (src/unnamed/part_002): `makeDebugConfigurations`,
  `createExecutableConfigurations`;
* `WendyDebugConfigurationProvider` (src/unnamed/part_000, second file):
  `ensureDebugPort`, the wendy.json routing prefix of
  `resolveDebugConfigurationWithSubstitutedVariables`;
* `DeviceManager` (src/unnamed/part_000, first file): `addDevice`,
  `deleteDevice`, `setCurrentDevice`, `checkForUpdates`;
* `EdgeWorkspaceContext` (src/unnamed/part_011): the readiness coordinator
  (`markFoldersReady`, `checkAllFoldersProcessed`,
  `getOrCreateFolderContext`, `handleFolderEvent`, the fallback timer and
  the one-shot `generateLaunchConfigurations` guard).

JavaScript sets are modelled as duplicate-free lists, JavaScript `Map`-less
object state as structures, thrown errors as `Except`, and the
single-threaded cooperative scheduler as explicit interleaving of atomic
blocks delimited by `await` suspension points.
-/

namespace WendyVSCode

/-! ## Configuration synthesizer (debugger/launch.ts, src/unnamed/part_002) -/

/-- The descriptor kind tag imported from `EdgeDebugConfigurationProvider`.
The defining file is not part of the provided sources; the concrete string
value is irrelevant to every claim (only equality with itself is used). -/
def EDGE_LAUNCH_CONFIG_TYPE : String := "edge"

/-- A debug launch descriptor as synthesized by `createExecutableConfigurations`
and stored in the folder's `launch.json` `configurations` array. -/
structure DebugConfiguration where
  type : String
  name : String
  request : String
  target : String
  cwd : String
  preLaunchTask : String
deriving DecidableEq, Repr

/-- From `createExecutableConfigurations` (src/unnamed/part_002, lines 50-76):
one descriptor per executable product; the empty list when the toolchain
context reports zero executable products. `folder` is the posix folder path
returned by `getFolderAndNameSuffix`. -/
def createExecutableConfigurations (folder : String)
    (executableProducts : List String) : List DebugConfiguration :=
  if executableProducts.length = 0 then []
  else
    executableProducts.map fun productName =>
      { type := EDGE_LAUNCH_CONFIG_TYPE
        name := "Debug " ++ productName ++ " on EdgeOS"
        request := "attach"
        target := productName
        cwd := folder
        preLaunchTask := "edge: Run " ++ productName }

/-- From `makeDebugConfigurations` (src/unnamed/part_002, lines 9-48).
The folder's persisted configuration list is passed in and the updated list
is returned together with the boolean result: `false` when an Edge-kind
descriptor already exists or when zero descriptors were generated (no
write happens, the list is returned unchanged); `true` when the new
descriptors were prepended and written back. -/
def makeDebugConfigurations (folder : String) (executableProducts : List String)
    (configurations : List DebugConfiguration) : Bool × List DebugConfiguration :=
  let hasEdgeConfigurations :=
    configurations.any fun config => config.type == EDGE_LAUNCH_CONFIG_TYPE
  if hasEdgeConfigurations then
    (false, configurations)
  else
    let edgeConfigurations := createExecutableConfigurations folder executableProducts
    if edgeConfigurations.length = 0 then
      (false, configurations)
    else
      (true, edgeConfigurations ++ configurations)

/-! ## Remote address derivation (WendyDebugConfigurationProvider,
src/unnamed/part_000, lines 514-530)

The TypeScript reads:
```
private ensureDebugPort(address: string, port: number): string {
  if (address.includes(":")) {
    const [host, port] = address.split(":");
    if (port === port.toString()) {
      return address;
    }
    return `${host}:${port}`;
  }
  return `${address}:${port}`;
}
```
The destructured `port` (a string) shadows the numeric parameter, so the
guard compares the extracted port string with itself (`toString` on a
string is the identity) and is therefore always true: any address that
already contains a colon is returned unchanged. The embedding reproduces
this faithfully, shadowing included. JavaScript's `String.includes` and
`String.split` are modelled by structural recursion over the character
list of the string. -/

/-- Helper of `jsSplitOn`: split the remaining characters at every
separator, accumulating the current piece in reverse. -/
def jsSplitOnAux (sep : Char) : List Char → List Char → List String
  | [], acc => [String.mk acc.reverse]
  | c :: rest, acc =>
    if c = sep then String.mk acc.reverse :: jsSplitOnAux sep rest []
    else jsSplitOnAux sep rest (c :: acc)

/-- JavaScript `s.split(sep)` for a single-character separator. -/
def jsSplitOn (s : String) (sep : Char) : List String :=
  jsSplitOnAux sep s.data []

/-- JavaScript `s.includes(c)` for a single-character needle. -/
def jsIncludes (s : String) (c : Char) : Bool :=
  c ∈ s.data

def ensureDebugPort (address : String) (port : Nat) : String :=
  if jsIncludes address ':' then
    let parts := jsSplitOn address ':'
    let host := parts.headD ""
    let portShadowed := parts.getD 1 ""
    if portShadowed = portShadowed then
      address
    else
      host ++ ":" ++ portShadowed
  else
    address ++ ":" ++ toString port

/-! ## wendy.json routing (src/unnamed/part_000, lines 565-608 and 427-463)

`resolveDebugConfigurationWithSubstitutedVariables` reads `wendy.json`; on
any read or parse failure it logs and sets `edgeConfig = undefined`, and
then immediately evaluates `edgeConfig.language === "python"`. In
JavaScript a property access on `undefined` throws a `TypeError`; the
embedding models the possibly-undefined value as `Option` and the property
access as an `Except`. -/

/-- The parsed shape of `wendy.json` as far as routing inspects it. -/
structure WendyJsonConfig where
  language : Option String
deriving DecidableEq, Repr

/-- A JavaScript runtime error raised during routing. -/
inductive JsRuntimeError where
  | typeErrorUndefinedPropertyAccess
deriving DecidableEq, Repr

/-- The branch a launch request is routed to. -/
inductive DebugRoute where
  | python
  | swift
deriving DecidableEq, Repr

/-- JavaScript member access `edgeConfig.language`: throws `TypeError` when
`edgeConfig` is `undefined`. -/
def jsAccessLanguage : Option WendyJsonConfig → Except JsRuntimeError (Option String)
  | none => .error .typeErrorUndefinedPropertyAccess
  | some config => .ok config.language

/-- The routing prefix of `resolveDebugConfigurationWithSubstitutedVariables`
(src/unnamed/part_000, lines 593-607): evaluate `edgeConfig.language`,
route to the Python resolver when it equals `"python"`, otherwise default
to the Swift resolver. `edgeConfig` is `none` exactly when reading or
parsing `wendy.json` failed. -/
def resolveDebugRoute (edgeConfig : Option WendyJsonConfig) :
    Except JsRuntimeError DebugRoute := do
  let lang ← jsAccessLanguage edgeConfig
  if lang = some "python" then
    pure .python
  else
    pure .swift

/-! ## DeviceManager (src/unnamed/part_000, first file)

State that the claims exercise: the persisted manual device list
(`wendyos.devices`), the persisted current-device id
(`wendyos.currentDevice`), the in-memory merged device list (`this.devices`,
last populated by `getDevices`), and the process-lifetime
`deviceIdsCheckedForUpdates` set. VS Code configuration reads and writes
are modelled as field reads and functional updates of this state. -/

/-- A persisted manual device entry: `{ id, address }` as stored under
`wendyos.devices`. -/
structure PersistedDevice where
  id : String
  address : String
deriving DecidableEq, Repr

/-- The in-memory `Device` model (src/src/models/Device.ts). -/
structure Device where
  id : String
  address : String
  name : String
  agentVersion : Option String
  connectionType : String
deriving DecidableEq, Repr

/-- Errors thrown by the `DeviceManager` mutators. -/
inductive DeviceError where
  | deviceAlreadyExists (address : String)
  | deviceNotFound (id : String)
deriving DecidableEq, Repr

/-- The orchestrator-relevant state of a `DeviceManager` instance plus the
external configuration store it reads and writes. -/
structure DeviceManagerState where
  persistedDevices : List PersistedDevice
  currentDeviceId : Option String
  devices : List Device
  currentDevice : Option Device
  checkedForUpdates : List String
deriving DecidableEq, Repr

/-- From `setCurrentDevice` (src/unnamed/part_000, lines 200-221): when a
concrete id is given, look it up in the in-memory `this.devices` list and
throw `not found` when absent (before any write); otherwise remember the
device and persist the id. Setting `undefined` skips the lookup and
persists the absence. -/
def setCurrentDevice (s : DeviceManagerState) (deviceId : Option String) :
    Except DeviceError DeviceManagerState :=
  match deviceId with
  | some did =>
    match s.devices.find? fun d => d.id == did with
    | none => .error (.deviceNotFound did)
    | some device =>
      .ok { s with currentDevice := some device, currentDeviceId := some did }
  | none => .ok { s with currentDeviceId := none }

/-- From `addDevice` (src/unnamed/part_000, lines 227-256): reject a
duplicate address before any write; otherwise push `{ id := freshId,
address }`, persist the list, and — when the list now has exactly one
entry — call `setCurrentDevice` on the fresh id. A throw from that call
propagates out of `addDevice` after the device list write has happened, so
the returned state keeps the partial effect. -/
def addDevice (s : DeviceManagerState) (address : String) (freshId : String) :
    DeviceManagerState × Except DeviceError Device :=
  let devices := s.persistedDevices
  if devices.any fun d => d.address == address then
    (s, .error (.deviceAlreadyExists address))
  else
    let newDevice : PersistedDevice := { id := freshId, address := address }
    let devices := devices ++ [newDevice]
    let s1 := { s with persistedDevices := devices }
    let returned : Device :=
      { id := newDevice.id, address := newDevice.address, name := "Wendy Agent"
        agentVersion := none, connectionType := "Custom" }
    if devices.length = 1 then
      match setCurrentDevice s1 (some newDevice.id) with
      | .error e => (s1, .error e)
      | .ok s2 => (s2, .ok returned)
    else
      (s1, .ok returned)

/-- From `deleteDevice` (src/unnamed/part_000, lines 366-397): filter the
persisted list by id and throw `not found` (before any write) when nothing
was removed; otherwise persist the filtered list, and when the deleted id
was the current one, select the first remaining device or clear the
selection. A throw from the inner `setCurrentDevice` propagates after the
device list write. -/
def deleteDevice (s : DeviceManagerState) (deviceId : String) :
    DeviceManagerState × Except DeviceError Unit :=
  let devices := s.persistedDevices
  let updatedDevices := devices.filter fun d => d.id != deviceId
  if updatedDevices.length = devices.length then
    (s, .error (.deviceNotFound deviceId))
  else
    let s1 := { s with persistedDevices := updatedDevices }
    if s1.currentDeviceId = some deviceId then
      match updatedDevices with
      | firstRemaining :: _ =>
        match setCurrentDevice s1 (some firstRemaining.id) with
        | .error e => (s1, .error e)
        | .ok s2 => (s2, .ok ())
      | [] =>
        match setCurrentDevice s1 none with
        | .error e => (s1, .error e)
        | .ok s2 => (s2, .ok ())
    else
      (s1, .ok ())

/-- The `DeviceManager` state right after construction: nothing persisted
read yet would matter; the in-memory device list and the checked-set are
empty. -/
def emptyDeviceManager : DeviceManagerState :=
  { persistedDevices := [], currentDeviceId := none, devices := []
    currentDevice := none, checkedForUpdates := [] }

/-! ## Update-check de-duplication (src/unnamed/part_000, lines 164-195)

`checkForUpdates` runs on the single-threaded cooperative scheduler.  Its
guard is synchronous: the membership test on `deviceIdsCheckedForUpdates`
and the `add` happen before the first `await` (the `WendyCLI.create()`
call), so they form one atomic block; the remote `agent version` query is
a later block separated by suspension points.  Two concurrent invocations
for the same device id are modelled as two threads of these atomic blocks
interleaved by an arbitrary schedule. -/

/-- Shared state touched by `checkForUpdates`:  the checked-ids set and a
counter of remote version queries actually issued. -/
structure UpdateCheckState where
  checkedForUpdates : List String
  versionQueries : Nat
deriving DecidableEq, Repr

/-- Program counter of one `checkForUpdates` invocation, split at its
suspension points: `entry` is the synchronous guard block (membership test
plus `add`), `querying` is the remote version query, `finished` is
everything at or after completion. -/
inductive CheckPc where
  | entry
  | querying
  | finished
deriving DecidableEq, Repr

/-- One atomic block of `checkForUpdates device` for a device with id
`deviceId`: at `entry`, return early when the id is already in the set and
otherwise add it immediately (before the check completes); at `querying`,
issue the remote version query. -/
def checkForUpdatesStep (deviceId : String) (st : UpdateCheckState) (pc : CheckPc) :
    UpdateCheckState × CheckPc :=
  match pc with
  | .entry =>
    if deviceId ∈ st.checkedForUpdates then
      (st, .finished)
    else
      ({ st with checkedForUpdates := deviceId :: st.checkedForUpdates }, .querying)
  | .querying =>
    ({ st with versionQueries := st.versionQueries + 1 }, .finished)
  | .finished => (st, .finished)

/-- Two concurrent `checkForUpdates` invocations over the shared state. -/
structure TwoChecks where
  st : UpdateCheckState
  pcA : CheckPc
  pcB : CheckPc
deriving DecidableEq, Repr

/-- Run one scheduler choice: `true` advances invocation A by one atomic
block, `false` advances invocation B. -/
def twoChecksStep (deviceId : String) (sys : TwoChecks) (chooseA : Bool) : TwoChecks :=
  if chooseA then
    let (st, pc) := checkForUpdatesStep deviceId sys.st sys.pcA
    { sys with st := st, pcA := pc }
  else
    let (st, pc) := checkForUpdatesStep deviceId sys.st sys.pcB
    { sys with st := st, pcB := pc }

/-- Run a whole schedule of interleaving choices. -/
def runTwoChecks (deviceId : String) (sys : TwoChecks) : List Bool → TwoChecks
  | [] => sys
  | choice :: rest => runTwoChecks deviceId (twoChecksStep deviceId sys choice) rest

/-- Both invocations start at their guard with the id not yet checked and
no query issued. -/
def initTwoChecks : TwoChecks :=
  { st := { checkedForUpdates := [], versionQueries := 0 }, pcA := .entry, pcB := .entry }

/-! ## Readiness coordinator (EdgeWorkspaceContext, src/unnamed/part_011)

The coordinator's observable state: the constructor snapshot
`_initialFolderPaths`, the growing `_processedFolderPaths`, the list of
`EdgeFolderContext`s (`this.folders`, keyed here by folder path — the
source compares the upstream `FolderContext` objects by identity, and one
upstream object corresponds to one folder path), the `hasEdgeFolder` flag,
the one-shot ready flag with its fire counter, the fallback timer, and the
one-shot configuration-generation guard with its run counter.  The two
counters count `_onFoldersReady.fire()` calls and generation-pass bodies
actually entered; they are observations, not program variables. -/

/-- State of one `EdgeWorkspaceContext`. -/
structure WorkspaceState where
  initialFolderPaths : List String
  processedFolderPaths : List String
  folders : List String
  hasEdgeFolder : Bool
  initialFoldersReady : Bool
  timerArmed : Bool
  readyFireCount : Nat
  generatedConfigurations : Bool
  generationRuns : Nat
deriving DecidableEq, Repr

/-- Insert a path into a JavaScript `Set` modelled as a duplicate-free
list. -/
def insertPath (p : String) (paths : List String) : List String :=
  if p ∈ paths then paths else p :: paths

/-- The one-shot guard of `generateLaunchConfigurations`
(src/unnamed/part_011, lines 138-146): return immediately when the
`_generatedConfigurations` flag is set, otherwise set it (synchronously,
before the first suspension point) and run the generation pass once. -/
def generateLaunchConfigurations (s : WorkspaceState) : WorkspaceState :=
  if s.generatedConfigurations then s
  else { s with generatedConfigurations := true, generationRuns := s.generationRuns + 1 }

/-- From `markFoldersReady` (src/unnamed/part_011, lines 107-119): no-op
when `_initialFoldersReady` is already set; otherwise set it, fire
`_onFoldersReady` (whose synchronously invoked constructor-registered
handler calls `generateLaunchConfigurations`), and clear the pending
fallback timer. -/
def markFoldersReady (s : WorkspaceState) : WorkspaceState :=
  if s.initialFoldersReady then s
  else
    let s1 := { s with initialFoldersReady := true, readyFireCount := s.readyFireCount + 1 }
    let s2 := generateLaunchConfigurations s1
    { s2 with timerArmed := false }

/-- From `checkAllFoldersProcessed` (src/unnamed/part_011, lines 124-133):
the source compares the two set sizes — it marks the folders ready when
`_initialFolderPaths.size === 0` or
`_initialFolderPaths.size === _processedFolderPaths.size`. -/
def checkAllFoldersProcessed (s : WorkspaceState) : WorkspaceState :=
  if s.initialFolderPaths.length = 0 ∨
      s.initialFolderPaths.length = s.processedFolderPaths.length then
    markFoldersReady s
  else s

/-- From `getOrCreateFolderContext` (src/unnamed/part_011, lines 219-245):
return the existing context (setting `hasEdgeFolder`) when one exists;
otherwise create one, mark the path processed, and — only when the path is
in the initial snapshot — run `checkAllFoldersProcessed`. -/
def getOrCreateFolderContext (s : WorkspaceState) (path : String) : WorkspaceState :=
  if path ∈ s.folders then
    { s with hasEdgeFolder := true }
  else
    let s1 := { s with folders := s.folders ++ [path]
                       processedFolderPaths := insertPath path s.processedFolderPaths }
    if path ∈ s1.initialFolderPaths then checkAllFoldersProcessed s1 else s1

/-- The folder lifecycle operations of the upstream toolchain stream
(src/unnamed/part_011, lines 10-20). -/
inductive FolderOperation where
  | add
  | remove
  | focus
  | unfocus
  | packageUpdated
  | resolvedUpdated
  | workspaceStateUpdated
  | packageViewUpdated
  | pluginsUpdated
deriving DecidableEq, Repr

/-- From `handleFolderEvent` (src/unnamed/part_011, lines 247-285): `add`
and `packageUpdated` go through `getOrCreateFolderContext`; `remove`
disposes the matching context unless `hasEdgeFolder` is set; every other
operation is skipped. -/
def handleFolderEvent (s : WorkspaceState) (op : FolderOperation) (path : String) :
    WorkspaceState :=
  match op with
  | .add => getOrCreateFolderContext s path
  | .packageUpdated => getOrCreateFolderContext s path
  | .remove =>
    if path ∈ s.folders then
      if s.hasEdgeFolder then s
      else { s with folders := s.folders.erase path }
    else s
  | _ => s

/-- An event the coordinator can observe after construction: a folder
lifecycle event, the fallback timer expiry (a cancelled timer never
expires, so the expiry is a no-op once disarmed), or a direct external
call to the public `generateLaunchConfigurations`. -/
inductive WorkspaceEvent where
  | folderEvent (op : FolderOperation) (path : String)
  | timerFire
  | generateCall
deriving DecidableEq, Repr

/-- Dispatch one event against the coordinator state. -/
def stepEvent (s : WorkspaceState) (e : WorkspaceEvent) : WorkspaceState :=
  match e with
  | .folderEvent op path => handleFolderEvent s op path
  | .timerFire => if s.timerArmed then markFoldersReady s else s
  | .generateCall => generateLaunchConfigurations s

/-- Run a sequence of events in delivery order (the host delivers events
one at a time on the single-threaded scheduler). -/
def runEvents (s : WorkspaceState) : List WorkspaceEvent → WorkspaceState
  | [] => s
  | e :: rest => runEvents (stepEvent s e) rest

/-- The constructor (src/unnamed/part_011, lines 51-84): snapshot the
host's workspace folder paths into `_initialFolderPaths` and arm the
5-second fallback timer. -/
def initialWorkspaceState (workspaceFolders : List String) : WorkspaceState :=
  { initialFolderPaths := workspaceFolders.foldl (fun acc p => insertPath p acc) []
    processedFolderPaths := []
    folders := []
    hasEdgeFolder := false
    initialFoldersReady := false
    timerArmed := true
    readyFireCount := 0
    generatedConfigurations := false
    generationRuns := 0 }

/-! ## Derived predicates used by the proofs -/

/-- A sample descriptor carrying the orchestrator's kind tag, as the first
synthesis call would write it. -/
def sampleEdgeConfiguration : DebugConfiguration :=
  { type := EDGE_LAUNCH_CONFIG_TYPE, name := "Debug app on EdgeOS"
    request := "attach", target := "app", cwd := "/w"
    preLaunchTask := "edge: Run app" }

/-- Number of remote version queries an invocation at this program counter
will still issue. -/
def pendingQuery : CheckPc → Nat
  | .querying => 1
  | _ => 0

/-- Invariant of the two-invocation update-check system: either the device
id has been claimed and exactly one query is issued-or-pending in total,
or nothing has happened yet. -/
def TwoChecksInv (deviceId : String) (sys : TwoChecks) : Prop :=
  (deviceId ∈ sys.st.checkedForUpdates
    ∧ sys.st.versionQueries + pendingQuery sys.pcA + pendingQuery sys.pcB = 1)
  ∨ (deviceId ∉ sys.st.checkedForUpdates
    ∧ sys.st.versionQueries = 0 ∧ sys.pcA = .entry ∧ sys.pcB = .entry)

/-- Invariant of the readiness coordinator: the fire counter and the
generation-run counter mirror their one-shot flags, and once ready the
fallback timer is disarmed. -/
def WorkspaceInv (s : WorkspaceState) : Prop :=
  s.readyFireCount = (if s.initialFoldersReady then 1 else 0)
  ∧ s.generationRuns = (if s.generatedConfigurations then 1 else 0)
  ∧ (s.initialFoldersReady = true → s.timerArmed = false)

/-! ## Claim theorems -/

/-- C3 (code bug): the source's own comments say an existing port should be
normalized to the required debug port, and the spec states
`ensureDebugPort("10.0.0.5:9999", 4242) = "10.0.0.5:4242"`; but the
destructured `port` string shadows the numeric parameter, the guard
compares that string with itself and always succeeds, so an address that
already carries a port is returned unchanged. Appending to a port-less
address works as specified. -/
theorem ensureDebugPort_leaves_existing_port_unchanged :
    ensureDebugPort "10.0.0.5:9999" 4242 = "10.0.0.5:9999"
    ∧ ensureDebugPort "10.0.0.5:9999" 4242 ≠ "10.0.0.5:4242"
    ∧ ensureDebugPort "10.0.0.5" 4242 = "10.0.0.5:4242" := by
  exact ⟨rfl, by decide, rfl⟩

/-- C9 (code bug): when `wendy.json` is absent or unparseable the resolver
sets `edgeConfig = undefined` and then evaluates
`edgeConfig.language === "python"`, which throws a `TypeError` instead of
degrading to the default Swift branch; a parseable `wendy.json` without a
`language` field does reach the Swift branch. -/
theorem resolveDebugRoute_throws_on_missing_wendy_json :
    resolveDebugRoute none = .error .typeErrorUndefinedPropertyAccess
    ∧ resolveDebugRoute (some { language := none }) = .ok .swift
    ∧ resolveDebugRoute (some { language := some "python" }) = .ok .python := by
  exact ⟨rfl, rfl, rfl⟩

/-- C7 (code bug): the first `addDevice` on an empty registry persists the
new entry, but the follow-up `setCurrentDevice` looks the fresh id up in
the stale in-memory `this.devices` list, finds nothing, and throws
`not found`: the call rejects and the current-device id stays unset, so
the newly added first device never becomes the current device. The
duplicate-address rejection itself behaves as claimed: a second
`addDevice("host1")` rejects with the duplicate error and leaves exactly
one persisted entry for `"host1"`. -/
theorem addDevice_first_device_never_becomes_current :
    (addDevice emptyDeviceManager "host1" "id-1").2
      = .error (.deviceNotFound "id-1")
    ∧ (addDevice emptyDeviceManager "host1" "id-1").1.persistedDevices
      = [{ id := "id-1", address := "host1" }]
    ∧ (addDevice emptyDeviceManager "host1" "id-1").1.currentDeviceId = none
    ∧ addDevice (addDevice emptyDeviceManager "host1" "id-1").1 "host1" "id-2"
      = ((addDevice emptyDeviceManager "host1" "id-1").1,
         .error (.deviceAlreadyExists "host1")) := by
  exact ⟨rfl, rfl, rfl, rfl⟩

/-- C1 (code bug): `checkAllFoldersProcessed` compares the sizes of the two
path sets instead of testing `processedFolderPaths ⊇ initialFolderPaths`.
With initial folders `/a, /b`, processing the outside folder `/c` and then
`/a` makes both sets have size two, so the barrier fires although `/b` was
never processed; dually, with the single initial folder `/a`, the same
event sequence reaches `processed ⊇ initial` yet never fires the
event-driven trigger because the sizes differ. -/
theorem readiness_trigger_compares_sizes_not_superset :
    (runEvents (initialWorkspaceState ["/a", "/b"])
        [.folderEvent .add "/c", .folderEvent .add "/a"]).readyFireCount = 1
    ∧ "/b" ∈ (initialWorkspaceState ["/a", "/b"]).initialFolderPaths
    ∧ "/b" ∉ (runEvents (initialWorkspaceState ["/a", "/b"])
        [.folderEvent .add "/c", .folderEvent .add "/a"]).processedFolderPaths
    ∧ (runEvents (initialWorkspaceState ["/a"])
        [.folderEvent .add "/c", .folderEvent .add "/a"]).readyFireCount = 0
    ∧ ∀ p ∈ (initialWorkspaceState ["/a"]).initialFolderPaths,
        p ∈ (runEvents (initialWorkspaceState ["/a"])
          [.folderEvent .add "/c", .folderEvent .add "/a"]).processedFolderPaths := by
  exact ⟨rfl, by decide, by decide, rfl, by decide⟩

/-- C10 counterexample: on a folder with zero runnable targets the
synthesis result is the boolean `false` — the very same value returned in
the already-configured case — so the two outcomes are not distinct in the
returned result. -/
theorem zero_targets_result_equals_already_configured :
    (makeDebugConfigurations "/w" [] []).1
      = (makeDebugConfigurations "/w" ["app"] [sampleEdgeConfiguration]).1
    ∧ makeDebugConfigurations "/w" [] [] = (false, [])
    ∧ (makeDebugConfigurations "/w" ["app"] [sampleEdgeConfiguration]).1 = false := by
  exact ⟨rfl, by decide, by decide⟩

/-- C10 (amended): a folder whose toolchain context reports zero runnable
targets yields zero descriptors and no write — the configuration list is
returned unchanged — and the call returns `false`, the same result value
as the already-configured case. -/
theorem makeDebugConfigurations_zero_targets_noop (folder : String)
    (configurations : List DebugConfiguration) :
    makeDebugConfigurations folder [] configurations = (false, configurations) := by
  by_cases h : (configurations.any fun config => config.type == EDGE_LAUNCH_CONFIG_TYPE) = true
  · simp [makeDebugConfigurations, h]
  · simp [makeDebugConfigurations, h, createExecutableConfigurations]

/-- Every descriptor produced by `createExecutableConfigurations` carries
the orchestrator's kind tag. -/
theorem createExecutableConfigurations_all_edge (folder : String)
    (executableProducts : List String) :
    ∀ c ∈ createExecutableConfigurations folder executableProducts,
      c.type = EDGE_LAUNCH_CONFIG_TYPE := by
  intro c hc
  unfold createExecutableConfigurations at hc
  split at hc
  · simp at hc
  · obtain ⟨p, _, rfl⟩ := List.mem_map.mp hc
    rfl

/-- Case analysis of `makeDebugConfigurations`: either it is a no-op
returning `false`, or it prepends the nonempty synthesized list, returns
`true`, and the input list held no Edge-kind descriptor. -/
theorem makeDebugConfigurations_cases (folder : String)
    (executableProducts : List String) (configurations : List DebugConfiguration) :
    makeDebugConfigurations folder executableProducts configurations
        = (false, configurations)
    ∨ (makeDebugConfigurations folder executableProducts configurations
        = (true, createExecutableConfigurations folder executableProducts ++ configurations)
      ∧ createExecutableConfigurations folder executableProducts ≠ []
      ∧ (configurations.any fun config => config.type == EDGE_LAUNCH_CONFIG_TYPE) = false) := by
  by_cases h1 : (configurations.any fun config => config.type == EDGE_LAUNCH_CONFIG_TYPE) = true
  · left
    simp [makeDebugConfigurations, h1]
  · by_cases h2 : (createExecutableConfigurations folder executableProducts).length = 0
    · left
      simp [makeDebugConfigurations, h1, h2]
    · right
      refine ⟨by simp [makeDebugConfigurations, h1, h2], ?_, by simpa using h1⟩
      intro hnil
      exact h2 (by simp [hnil])

/-- C5: a synthesis call never removes or rewrites a pre-existing
descriptor: the input configuration list is always a suffix of the
resulting list, unchanged and in its original relative order, and the
result is either exactly the input list (no write) or the synthesized
descriptors prepended ahead of it. -/
theorem makeDebugConfigurations_preserves_existing (folder : String)
    (executableProducts : List String) (configurations : List DebugConfiguration) :
    List.IsSuffix configurations
        (makeDebugConfigurations folder executableProducts configurations).2
    ∧ ((makeDebugConfigurations folder executableProducts configurations).2
        = configurations
      ∨ (makeDebugConfigurations folder executableProducts configurations).2
        = createExecutableConfigurations folder executableProducts ++ configurations) := by
  rcases makeDebugConfigurations_cases folder executableProducts configurations with
    h | ⟨h, -, -⟩
  · rw [h]
    exact ⟨List.suffix_refl _, Or.inl rfl⟩
  · rw [h]
    exact ⟨List.suffix_append _ _, Or.inr rfl⟩

/-- C4: synthesis is idempotent on the persisted descriptor list: when a
first call wrote descriptors (returned `true`), the written list contains
an Edge-kind descriptor, so any second call on that list detects it,
performs no write, returns `false`, and leaves the stored list — and
hence its length — unchanged. -/
theorem makeDebugConfigurations_idempotent (folder1 folder2 : String)
    (products1 products2 : List String) (configurations : List DebugConfiguration)
    (h : (makeDebugConfigurations folder1 products1 configurations).1 = true) :
    makeDebugConfigurations folder2 products2
        (makeDebugConfigurations folder1 products1 configurations).2
      = (false, (makeDebugConfigurations folder1 products1 configurations).2) := by
  rcases makeDebugConfigurations_cases folder1 products1 configurations with
    hcase | ⟨hcase, hne, -⟩
  · rw [hcase] at h
    simp at h
  · rw [hcase] at h ⊢
    have hanynew : ((createExecutableConfigurations folder1 products1
        ++ configurations).any fun config => config.type == EDGE_LAUNCH_CONFIG_TYPE)
        = true := by
      rcases List.exists_mem_of_ne_nil _ hne with ⟨c, hc⟩
      have hct := createExecutableConfigurations_all_edge folder1 products1 c hc
      refine List.any_eq_true.mpr ⟨c, List.mem_append_left _ hc, ?_⟩
      simp [hct]
    simp [makeDebugConfigurations, hanynew]

/-- C4 witness: a first call on an empty list for one product writes, and
the second call is a no-op on the written singleton list. -/
theorem makeDebugConfigurations_idempotent_witness :
    makeDebugConfigurations "/w" ["app"] (makeDebugConfigurations "/w" ["app"] []).2
      = (false, (makeDebugConfigurations "/w" ["app"] []).2) :=
  makeDebugConfigurations_idempotent "/w" "/w" ["app"] ["app"] [] (by decide)

/-- C8: `deleteDevice` with an unknown id rejects with `not found` leaving
the state unchanged; deleting the current device from a registry with two
manual devices leaves the other device selected as current (provided the
in-memory merged list — populated by the last `getDevices` — contains the
remaining device, which `setCurrentDevice` consults); deleting the last
remaining (current) device clears the current-device id. -/
theorem deleteDevice_current_selection :
    (∀ (d1 d2 : PersistedDevice) (s : DeviceManagerState),
        d1.id ≠ d2.id →
        s.persistedDevices = [d1, d2] →
        s.currentDeviceId = some d1.id →
        ((s.devices.find? fun d => d.id == d2.id).isSome = true) →
        (deleteDevice s d1.id).2 = .ok ()
        ∧ (deleteDevice s d1.id).1.persistedDevices = [d2]
        ∧ (deleteDevice s d1.id).1.currentDeviceId = some d2.id)
    ∧ (∀ (d : PersistedDevice) (s : DeviceManagerState),
        s.persistedDevices = [d] →
        s.currentDeviceId = some d.id →
        (deleteDevice s d.id).2 = .ok ()
        ∧ (deleteDevice s d.id).1.persistedDevices = []
        ∧ (deleteDevice s d.id).1.currentDeviceId = none)
    ∧ (∀ (deviceId : String) (s : DeviceManagerState),
        (∀ d ∈ s.persistedDevices, d.id ≠ deviceId) →
        deleteDevice s deviceId = (s, .error (.deviceNotFound deviceId))) := by
  refine ⟨?_, ?_, ?_⟩
  · intro d1 d2 s hne hp hcur hfind
    obtain ⟨pd, cid, devs, curd, chk⟩ := s
    simp only at hp hcur hfind
    subst hp
    subst hcur
    obtain ⟨dev, hdev⟩ := Option.isSome_iff_exists.mp hfind
    have hb1 : (d1.id != d1.id) = false := by simp
    have hb2 : (d2.id != d1.id) = true := by simpa [bne_iff_ne] using Ne.symm hne
    simp [deleteDevice, setCurrentDevice, List.filter_cons, hb1, hb2, hdev]
  · intro d s hp hcur
    have hfilter : (s.persistedDevices.filter fun d0 => d0.id != d.id) = [] := by
      rw [hp]
      simp [List.filter]
    simp only [deleteDevice, hfilter, hp, hcur, setCurrentDevice]
    simp
  · intro deviceId s hall
    have hfilter : (s.persistedDevices.filter fun d => d.id != deviceId)
        = s.persistedDevices :=
      List.filter_eq_self.mpr fun d hd => by simpa [bne_iff_ne] using hall d hd
    simp [deleteDevice, hfilter]

/-- C8 witness: concrete two-device and one-device registries exercising
all three conjuncts. -/
theorem deleteDevice_current_selection_witness :
    (deleteDevice
        { persistedDevices := [⟨"id-a", "h1"⟩, ⟨"id-b", "h2"⟩]
          currentDeviceId := some "id-a"
          devices := [⟨"id-a", "h1", "h1", none, "Custom"⟩,
                      ⟨"id-b", "h2", "h2", none, "Custom"⟩]
          currentDevice := none
          checkedForUpdates := [] } "id-a").1.currentDeviceId = some "id-b"
    ∧ (deleteDevice
        { persistedDevices := [⟨"id-a", "h1"⟩]
          currentDeviceId := some "id-a"
          devices := []
          currentDevice := none
          checkedForUpdates := [] } "id-a").1.currentDeviceId = none
    ∧ deleteDevice
        { persistedDevices := [⟨"id-a", "h1"⟩]
          currentDeviceId := some "id-a"
          devices := []
          currentDevice := none
          checkedForUpdates := [] } "id-z"
      = ({ persistedDevices := [⟨"id-a", "h1"⟩]
           currentDeviceId := some "id-a"
           devices := []
           currentDevice := none
           checkedForUpdates := [] }, .error (.deviceNotFound "id-z")) :=
  ⟨(deleteDevice_current_selection.1 ⟨"id-a", "h1"⟩ ⟨"id-b", "h2"⟩ _
      (by decide) rfl rfl (by decide)).2.2,
   (deleteDevice_current_selection.2.1 ⟨"id-a", "h1"⟩ _ rfl rfl).2.2,
   deleteDevice_current_selection.2.2 "id-z" _ (by decide)⟩

/-- One scheduler step preserves the two-invocation update-check
invariant. -/
theorem twoChecksStep_inv (deviceId : String) (sys : TwoChecks) (choice : Bool)
    (h : TwoChecksInv deviceId sys) :
    TwoChecksInv deviceId (twoChecksStep deviceId sys choice) := by
  rcases h with ⟨hmem, hsum⟩ | ⟨hmem, hq, ha, hb⟩
  · cases choice
    · cases hpc : sys.pcB with
      | entry =>
        left
        constructor
        · simp [twoChecksStep, checkForUpdatesStep, hpc, hmem]
        · simp only [twoChecksStep, checkForUpdatesStep, hpc, hmem] at hsum ⊢
          simpa [pendingQuery] using hsum
      | querying =>
        left
        rw [hpc] at hsum
        simp only [pendingQuery] at hsum
        constructor
        · simp [twoChecksStep, checkForUpdatesStep, hpc, hmem]
        · simp [twoChecksStep, checkForUpdatesStep, hpc, pendingQuery]
          omega
      | finished =>
        left
        rw [hpc] at hsum
        simp only [pendingQuery] at hsum
        constructor
        · simp [twoChecksStep, checkForUpdatesStep, hpc, hmem]
        · simp [twoChecksStep, checkForUpdatesStep, hpc, pendingQuery]
          omega
    · cases hpc : sys.pcA with
      | entry =>
        left
        constructor
        · simp [twoChecksStep, checkForUpdatesStep, hpc, hmem]
        · simp only [twoChecksStep, checkForUpdatesStep, hpc, hmem] at hsum ⊢
          simpa [pendingQuery] using hsum
      | querying =>
        left
        rw [hpc] at hsum
        simp only [pendingQuery] at hsum
        constructor
        · simp [twoChecksStep, checkForUpdatesStep, hpc, hmem]
        · simp [twoChecksStep, checkForUpdatesStep, hpc, pendingQuery]
          omega
      | finished =>
        left
        rw [hpc] at hsum
        simp only [pendingQuery] at hsum
        constructor
        · simp [twoChecksStep, checkForUpdatesStep, hpc, hmem]
        · simp [twoChecksStep, checkForUpdatesStep, hpc, pendingQuery]
          omega
  · cases choice
    · left
      constructor
      · simp [twoChecksStep, checkForUpdatesStep, hb, hmem]
      · simp [twoChecksStep, checkForUpdatesStep, hb, hmem, ha, hq, pendingQuery]
    · left
      constructor
      · simp [twoChecksStep, checkForUpdatesStep, ha, hmem]
      · simp [twoChecksStep, checkForUpdatesStep, ha, hmem, hb, hq, pendingQuery]

/-- The invariant holds after any schedule from an invariant state. -/
theorem runTwoChecks_inv (deviceId : String) (sched : List Bool) (sys : TwoChecks)
    (h : TwoChecksInv deviceId sys) :
    TwoChecksInv deviceId (runTwoChecks deviceId sys sched) := by
  induction sched generalizing sys with
  | nil => exact h
  | cons choice rest ih =>
    exact ih _ (twoChecksStep_inv deviceId sys choice h)

/-- C6: under every interleaving of two concurrent `checkForUpdates`
invocations for the same device id, exactly one remote version query is
issued once both complete; the checked-ids set only grows — no atomic
block ever removes an id; and the guard block adds the id before the first
suspension point, so the id is in the set immediately after the entry
block of either invocation. -/
theorem checkForUpdates_single_query :
    (∀ (deviceId : String) (sched : List Bool),
        (runTwoChecks deviceId initTwoChecks sched).pcA = .finished →
        (runTwoChecks deviceId initTwoChecks sched).pcB = .finished →
        (runTwoChecks deviceId initTwoChecks sched).st.versionQueries = 1)
    ∧ (∀ (deviceId x : String) (st : UpdateCheckState) (pc : CheckPc),
        x ∈ st.checkedForUpdates →
        x ∈ (checkForUpdatesStep deviceId st pc).1.checkedForUpdates)
    ∧ (∀ (deviceId : String) (st : UpdateCheckState),
        deviceId ∈ (checkForUpdatesStep deviceId st .entry).1.checkedForUpdates) := by
  refine ⟨?_, ?_, ?_⟩
  · intro deviceId sched hA hB
    have hinv := runTwoChecks_inv deviceId sched initTwoChecks
      (Or.inr (by simp [initTwoChecks]))
    rcases hinv with ⟨-, hsum⟩ | ⟨-, -, ha, -⟩
    · rw [hA, hB] at hsum
      simpa [pendingQuery] using hsum
    · rw [hA] at ha
      cases ha
  · intro deviceId x st pc hx
    cases pc with
    | entry =>
      by_cases hm : deviceId ∈ st.checkedForUpdates
      · simpa [checkForUpdatesStep, hm] using hx
      · simp [checkForUpdatesStep, hm]
        exact Or.inr hx
    | querying => simpa [checkForUpdatesStep] using hx
    | finished => simpa [checkForUpdatesStep] using hx
  · intro deviceId st
    by_cases hm : deviceId ∈ st.checkedForUpdates
    · simp [checkForUpdatesStep, hm]
    · simp [checkForUpdatesStep, hm]

/-- C6 witness: invocation A runs its guard and query, then invocation B
runs its guard and returns early — one query in total. -/
theorem checkForUpdates_single_query_witness :
    (runTwoChecks "device-1" initTwoChecks [true, true, false]).st.versionQueries = 1
    ∧ "device-1" ∈ (checkForUpdatesStep "device-1"
        { checkedForUpdates := [], versionQueries := 0 } .entry).1.checkedForUpdates :=
  ⟨checkForUpdates_single_query.1 "device-1" [true, true, false] (by decide) (by decide),
   checkForUpdates_single_query.2.2 "device-1"
     { checkedForUpdates := [], versionQueries := 0 }⟩

/-- The generation pass preserves the coordinator invariant. -/
theorem generateLaunchConfigurations_inv (s : WorkspaceState) (h : WorkspaceInv s) :
    WorkspaceInv (generateLaunchConfigurations s) := by
  obtain ⟨h1, h2, h3⟩ := h
  by_cases hg : s.generatedConfigurations
  · simpa [generateLaunchConfigurations, hg] using ⟨h1, h2, h3⟩
  · simp [hg] at h2
    unfold generateLaunchConfigurations
    rw [if_neg hg]
    exact ⟨by simpa using h1, by simp [h2], by simpa using h3⟩

/-- Marking the folders ready preserves the coordinator invariant. -/
theorem markFoldersReady_inv (s : WorkspaceState) (h : WorkspaceInv s) :
    WorkspaceInv (markFoldersReady s) := by
  obtain ⟨h1, h2, h3⟩ := h
  by_cases hr : s.initialFoldersReady
  · simpa [markFoldersReady, hr] using ⟨h1, h2, h3⟩
  · simp [hr] at h1
    by_cases hg : s.generatedConfigurations
    · simp [hg] at h2
      simp [WorkspaceInv, markFoldersReady, generateLaunchConfigurations, hr, hg, h1, h2]
    · simp [hg] at h2
      simp [WorkspaceInv, markFoldersReady, generateLaunchConfigurations, hr, hg, h1, h2]

/-- The size check preserves the coordinator invariant. -/
theorem checkAllFoldersProcessed_inv (s : WorkspaceState) (h : WorkspaceInv s) :
    WorkspaceInv (checkAllFoldersProcessed s) := by
  unfold checkAllFoldersProcessed
  split
  · exact markFoldersReady_inv s h
  · exact h

/-- Folder-context creation preserves the coordinator invariant. -/
theorem getOrCreateFolderContext_inv (s : WorkspaceState) (path : String)
    (h : WorkspaceInv s) :
    WorkspaceInv (getOrCreateFolderContext s path) := by
  unfold getOrCreateFolderContext
  by_cases hf : path ∈ s.folders
  · simpa [WorkspaceInv, hf] using h
  · rw [if_neg hf]
    dsimp only
    split
    · exact checkAllFoldersProcessed_inv _ (by simpa [WorkspaceInv] using h)
    · simpa [WorkspaceInv] using h

/-- Every event dispatch preserves the coordinator invariant. -/
theorem stepEvent_inv (s : WorkspaceState) (e : WorkspaceEvent) (h : WorkspaceInv s) :
    WorkspaceInv (stepEvent s e) := by
  cases e with
  | folderEvent op path =>
    cases op with
    | add => exact getOrCreateFolderContext_inv s path h
    | packageUpdated => exact getOrCreateFolderContext_inv s path h
    | remove =>
      simp only [stepEvent, handleFolderEvent]
      split
      · split
        · exact h
        · simpa [WorkspaceInv] using h
      · exact h
    | _ => exact h
  | timerFire =>
    simp only [stepEvent]
    split
    · exact markFoldersReady_inv s h
    · exact h
  | generateCall => exact generateLaunchConfigurations_inv s h

/-- The coordinator invariant holds in every reachable state. -/
theorem runEvents_inv (s : WorkspaceState) (events : List WorkspaceEvent)
    (h : WorkspaceInv s) :
    WorkspaceInv (runEvents s events) := by
  induction events generalizing s with
  | nil => exact h
  | cons e rest ih => exact ih _ (stepEvent_inv s e h)

/-- The constructor state satisfies the coordinator invariant. -/
theorem initialWorkspaceState_inv (workspaceFolders : List String) :
    WorkspaceInv (initialWorkspaceState workspaceFolders) := by
  simp [WorkspaceInv, initialWorkspaceState]

/-- Once ready, `markFoldersReady` is a no-op. -/
theorem markFoldersReady_noop (s : WorkspaceState) (h : s.initialFoldersReady = true) :
    markFoldersReady s = s := by
  simp [markFoldersReady, h]

/-- The size check never unsets readiness. -/
theorem checkAllFoldersProcessed_ready_mono (s : WorkspaceState)
    (h : s.initialFoldersReady = true) :
    (checkAllFoldersProcessed s).initialFoldersReady = true := by
  unfold checkAllFoldersProcessed
  split
  · rw [markFoldersReady_noop s h]
    exact h
  · exact h

/-- Folder-context creation never unsets readiness. -/
theorem getOrCreateFolderContext_ready_mono (s : WorkspaceState) (path : String)
    (h : s.initialFoldersReady = true) :
    (getOrCreateFolderContext s path).initialFoldersReady = true := by
  unfold getOrCreateFolderContext
  by_cases hf : path ∈ s.folders
  · simpa [hf] using h
  · rw [if_neg hf]
    dsimp only
    split
    · exact checkAllFoldersProcessed_ready_mono _ (by simpa using h)
    · simpa using h

/-- No event dispatch ever unsets readiness. -/
theorem stepEvent_ready_mono (s : WorkspaceState) (e : WorkspaceEvent)
    (h : s.initialFoldersReady = true) :
    (stepEvent s e).initialFoldersReady = true := by
  cases e with
  | folderEvent op path =>
    cases op with
    | add => exact getOrCreateFolderContext_ready_mono s path h
    | packageUpdated => exact getOrCreateFolderContext_ready_mono s path h
    | remove =>
      simp only [stepEvent, handleFolderEvent]
      split
      · split
        · exact h
        · simpa using h
      · exact h
    | _ => exact h
  | timerFire =>
    simp only [stepEvent]
    split
    · rw [markFoldersReady_noop s h]
      exact h
    · exact h
  | generateCall =>
    show (generateLaunchConfigurations s).initialFoldersReady = true
    unfold generateLaunchConfigurations
    split
    · exact h
    · simpa using h

/-- A disarmed fallback timer never fires: the expiry event is a no-op. -/
theorem timerFire_noop (s : WorkspaceState) (h : s.timerArmed = false) :
    stepEvent s .timerFire = s := by
  simp [stepEvent, h]

/-- Repeated expiry events on a disarmed timer leave the state unchanged. -/
theorem runEvents_timer_noop (s : WorkspaceState) (h : s.timerArmed = false)
    (k : Nat) :
    runEvents s (List.replicate k .timerFire) = s := by
  induction k with
  | zero => rfl
  | succ n ih =>
    rw [List.replicate_succ]
    show runEvents (stepEvent s .timerFire) _ = s
    rw [timerFire_noop s h]
    exact ih

/-- The state right after the very first fallback-timeout expiry. -/
theorem stepEvent_timerFire_initial (workspaceFolders : List String) :
    stepEvent (initialWorkspaceState workspaceFolders) .timerFire
      = { initialWorkspaceState workspaceFolders with
          initialFoldersReady := true
          timerArmed := false
          readyFireCount := 1
          generatedConfigurations := true
          generationRuns := 1 } := rfl

/-- C2: under every interleaving of the two readiness triggers the ready
flag is monotone (never unset by any event), the folders-ready signal
fires at most once, the generation pass runs at most once, and the
fallback timer is disarmed whenever the flag is set; and when the
lifecycle stream never emits — a trace consisting only of fallback-timer
expiries — the barrier fires exactly once, at the first expiry, and the
generation pass runs exactly once. -/
theorem readiness_barrier_one_shot :
    (∀ (workspaceFolders : List String) (events : List WorkspaceEvent),
        (runEvents (initialWorkspaceState workspaceFolders) events).readyFireCount ≤ 1
        ∧ (runEvents (initialWorkspaceState workspaceFolders) events).generationRuns ≤ 1
        ∧ ((runEvents (initialWorkspaceState workspaceFolders) events).initialFoldersReady
              = true →
            (runEvents (initialWorkspaceState workspaceFolders) events).timerArmed = false))
    ∧ (∀ (s : WorkspaceState) (e : WorkspaceEvent),
        s.initialFoldersReady = true → (stepEvent s e).initialFoldersReady = true)
    ∧ (∀ (workspaceFolders : List String) (k : Nat), 1 ≤ k →
        (runEvents (initialWorkspaceState workspaceFolders)
            (List.replicate k WorkspaceEvent.timerFire)).readyFireCount = 1
        ∧ (runEvents (initialWorkspaceState workspaceFolders)
            (List.replicate k WorkspaceEvent.timerFire)).generationRuns = 1) := by
  refine ⟨?_, stepEvent_ready_mono, ?_⟩
  · intro workspaceFolders events
    obtain ⟨h1, h2, h3⟩ :=
      runEvents_inv (initialWorkspaceState workspaceFolders) events
        (initialWorkspaceState_inv workspaceFolders)
    refine ⟨?_, ?_, h3⟩
    · rw [h1]
      split <;> omega
    · rw [h2]
      split <;> omega
  · intro workspaceFolders k hk
    obtain ⟨j, rfl⟩ : ∃ j, k = j + 1 := ⟨k - 1, by omega⟩
    rw [List.replicate_succ]
    show (runEvents (stepEvent (initialWorkspaceState workspaceFolders) .timerFire)
        (List.replicate j .timerFire)).readyFireCount = 1
      ∧ (runEvents (stepEvent (initialWorkspaceState workspaceFolders) .timerFire)
        (List.replicate j .timerFire)).generationRuns = 1
    rw [stepEvent_timerFire_initial, runEvents_timer_noop _ rfl j]
    exact ⟨rfl, rfl⟩

/-- C2 witness: the empty workspace with a single timeout expiry fires the
barrier once and runs generation once, and a further event does not unset
the ready flag. -/
theorem readiness_barrier_one_shot_witness :
    (runEvents (initialWorkspaceState ["/a"])
        (List.replicate 1 WorkspaceEvent.timerFire)).readyFireCount = 1
    ∧ (runEvents (initialWorkspaceState ["/a"])
        (List.replicate 1 WorkspaceEvent.timerFire)).generationRuns = 1
    ∧ (stepEvent (runEvents (initialWorkspaceState ["/a"])
        (List.replicate 1 WorkspaceEvent.timerFire)) .timerFire).initialFoldersReady = true
    ∧ (runEvents (initialWorkspaceState ["/a"])
        [WorkspaceEvent.timerFire, .generateCall]).generationRuns ≤ 1 :=
  ⟨(readiness_barrier_one_shot.2.2 ["/a"] 1 (by decide)).1,
   (readiness_barrier_one_shot.2.2 ["/a"] 1 (by decide)).2,
   readiness_barrier_one_shot.2.1 _ .timerFire (by decide),
   (readiness_barrier_one_shot.1 ["/a"] [WorkspaceEvent.timerFire, .generateCall]).2.1⟩

end WendyVSCode
